import Mathlib

/-!
Verification of the room-temperature merger (`main.py`) against its
specification.  The Python source is shallowly embedded below: cell values
become an explicit variant type, sheets become bounded grids with a total
cell-lookup function, numbers become rationals, and each Python function
(`auto_detect_sheets`, `detect_data_offset`, `build_sensor_mapping`, the
per-cell body of `process_excel`) becomes a Lean definition of the same name.
-/

namespace RoomTemp

/-- A cell value as openpyxl delivers it to the Python code: `None`, a number
(`int`/`float`, modelled as `ℚ`), a string, or a boolean (Python `bool` is a
subclass of `int`, so it is kept as a separate constructor to model
`isinstance(v, (int, float))` faithfully). -/
inductive Value where
| empty : Value
| num : ℚ → Value
| text : String → Value
| boolean : Bool → Value
deriving DecidableEq

/-- `isinstance(v, (int, float))` in Python: true for numbers and for
booleans (Python `bool` is a subclass of `int`), false for `None` and `str`. -/
def Value.isNum : Value → Bool
| Value.num _ => true
| Value.boolean _ => true
| _ => false

/-- The numeric content used in comparisons; Python `True == 1`, `False == 0`. -/
def Value.toRat : Value → ℚ
| Value.num q => q
| Value.boolean b => if b then 1 else 0
| _ => 0

/-- A worksheet: title, occupied rectangle (`min_row`..`max_row`,
`min_column`..`max_column`, 1-based), and a total cell lookup (openpyxl
returns a `None`-valued cell outside the occupied region). -/
structure Sheet where
  title : String
  minRow : ℕ
  maxRow : ℕ
  minCol : ℕ
  maxCol : ℕ
  cell : ℕ → ℕ → Value

/-- `[a, a+1, ..., a+n-1]`, the model of Python `range(a, a+n)`. -/
def rangeFromLen : ℕ → ℕ → List ℕ
| _, 0 => []
| a, n+1 => a :: rangeFromLen (a+1) n

/-- Python `range(sheet.min_row, sheet.max_row + 1)`. -/
def rowRange (s : Sheet) : List ℕ := rangeFromLen s.minRow (s.maxRow + 1 - s.minRow)

/-- Python `range(sheet.min_column, sheet.max_column + 1)`. -/
def colRange (s : Sheet) : List ℕ := rangeFromLen s.minCol (s.maxCol + 1 - s.minCol)

/-- Substring containment over character lists, the model of Python
`pat in hay` for strings (the empty pattern is contained in everything). -/
def containsToken (pat : List Char) : List Char → Bool
| [] => pat.isEmpty
| c :: t => pat.isPrefixOf (c :: t) || containsToken pat t

/-- Python `pat in hay` on strings. -/
def strContains (hay pat : String) : Bool := containsToken pat.toList hay.toList

/-- Python `s.lower()` (ASCII case folding suffices for the fixed keywords). -/
def lowerStr (t : String) : String := String.mk (t.toList.map Char.toLower)

/-- Python `t.startswith(pre)`. -/
def textStarts (t pre : String) : Bool := pre.toList.isPrefixOf t.toList

/-- The maximal leading run of decimal digits, used for the greedy `\d+`. -/
def digitsRun : List Char → List Char
| [] => []
| c :: t => if c.isDigit then c :: digitsRun t else []

/-- `re.search(r"OC\d+", s)`: the earliest occurrence of the literal letters
`OC` followed by at least one digit, matched greedily; `none` when absent. -/
def searchOC : List Char → Option String
| [] => none
| c :: t =>
  match c, t with
  | 'O', 'C' :: d :: rest =>
    if d.isDigit then some (String.mk ('O' :: 'C' :: d :: digitsRun rest))
    else searchOC t
  | _, _ => searchOC t

/-- The sensor identifier embedded in a header cell: the cell must hold a
truthy string (Python `if v and isinstance(v, str)`, so the empty string is
rejected) containing an `OC`-digits token. -/
def headerToken (s : Sheet) (headerRow c : ℕ) : Option String :=
  match s.cell headerRow c with
  | Value.text t => if t = "" then none else searchOC t.toList
  | _ => none

/-- One step of `build_sensor_mapping`: record `sensor_id → col`
(`mapping[sensor_id] = col`; a later column overwrites, which the
head-insertion plus front-first lookup below reproduces). -/
def mapStep (s : Sheet) (headerRow : ℕ) (m : List (String × ℕ)) (c : ℕ) :
    List (String × ℕ) :=
  match headerToken s headerRow c with
  | some sid => (sid, c) :: m
  | none => m

/-- `build_sensor_mapping(sheet, header_row)`: scan the occupied column range
and record every embedded sensor identifier with its column. -/
def build_sensor_mapping (s : Sheet) (headerRow : ℕ) : List (String × ℕ) :=
  (colRange s).foldl (mapStep s headerRow) []

/-- Python `mapping.get(sensor_id)`. -/
def lookupSensor (m : List (String × ℕ)) (sid : String) : Option ℕ :=
  (m.find? (fun p => p.1 == sid)).map (fun p => p.2)

/-- The row-major scan of one row for the first numeric cell. -/
def findNumInRow (s : Sheet) (r : ℕ) : Option ℕ :=
  (colRange s).find? (fun c => (s.cell r c).isNum)

/-- The nested scan loop of `detect_data_offset`: the first row containing a
numeric cell together with the first numeric column of that row. -/
def findFirstNum (s : Sheet) : Option (ℕ × ℕ) :=
  match (rowRange s).find? (fun r => (findNumInRow s r).isSome) with
  | some r => (findNumInRow s r).map (fun c => (r, c))
  | none => none

/-- The result of `detect_data_offset`. -/
structure OffsetTuple where
  headerRowStart : ℕ
  headerColStart : ℕ
  dataStartRow : ℕ
  dataStartCol : ℕ
deriving DecidableEq

/-- `detect_data_offset(sheet, header_rows_count, header_cols_count)`:
row-major scan for the first numeric cell; header boundaries clipped to the
occupied rectangle; whole sheet treated as data when no numeric cell exists.
(Rows and columns are naturals; `r - headerRows` truncates at 0, which agrees
with Python because the `max` with `min_row ≥ 1` absorbs any negative value.) -/
def detect_data_offset (s : Sheet) (headerRows headerCols : ℕ) : OffsetTuple :=
  match findFirstNum s with
  | some (r, c) =>
    OffsetTuple.mk (max s.minRow (r - headerRows)) (max s.minCol (c - headerCols)) r c
  | none => OffsetTuple.mk s.minRow s.minCol s.minRow s.minCol

/-- Python `round` to an integer: round-half-to-even (banker's rounding). -/
def roundHalfEven (x : ℚ) : ℤ :=
  let f : ℤ := ⌊x⌋
  let r : ℚ := x - (f : ℚ)
  if r < 1/2 then f
  else if 1/2 < r then f + 1
  else if f % 2 = 0 then f else f + 1

/-- Python `round(x, 2)`. -/
def round2 (x : ℚ) : ℚ := ((roundHalfEven (x * 100) : ℤ) : ℚ) / 100

/-- The classification outcome of one data cell. -/
inductive Verdict where
| low : ℚ → Verdict
| high : ℚ → Verdict
| ok : Verdict
| unclassified : Value → Verdict
deriving DecidableEq

/-- The classifier embedded from `process_excel` lines 158-166: when all of
sensed/lower/upper pass `isinstance(v, (int, float))`, compare (`≤ lower`
first, then `≥ upper`); otherwise fall back to the raw sensed value. -/
def classify (sensed lower upper : Value) : Verdict :=
  if sensed.isNum && lower.isNum && upper.isNum then
    let s := sensed.toRat
    let lo := lower.toRat
    let hi := upper.toRat
    if s ≤ lo then Verdict.low (round2 (s - lo))
    else if hi ≤ s then Verdict.high (round2 (s - hi))
    else Verdict.ok
  else Verdict.unclassified sensed

/-- Rendering of a rational for the `f"low: {diff}"` strings (the exact digit
format of Python's float repr is irrelevant to every property below; only the
`"low:"`/`"high:"` prefixes and the literal `"ok"` matter). -/
def ratStr (q : ℚ) : String := toString q.num ++ "/" ++ toString q.den

/-- The value written into the Result sheet for a verdict. -/
def renderVerdict : Verdict → Value
| Verdict.low d => Value.text ("low: " ++ ratStr d)
| Verdict.high d => Value.text ("high: " ++ ratStr d)
| Verdict.ok => Value.text "ok"
| Verdict.unclassified v => v

/-- The visual category applied to a Result cell. -/
inductive Tag where
| lowFill : Tag
| okFill : Tag
| highFill : Tag
| noTag : Tag
deriving DecidableEq

/-- The fill logic of `process_excel` lines 177-183: a fill only inside the
data region, chosen by inspecting the written string. -/
def resultTag (dsr dsc r c : ℕ) (v : Value) : Tag :=
  if dsr ≤ r ∧ dsc ≤ c then
    match v with
    | Value.text t =>
      if textStarts t "low:" then Tag.lowFill
      else if textStarts t "high:" then Tag.highFill
      else if t = "ok" then Tag.okFill
      else Tag.noTag
    | _ => Tag.noTag
  else Tag.noTag

/-- The per-cell body of the `process_excel` main loop (lines 136-173): header
cells are copied; data cells go through sensor-id lookup (hard-coded header
row 2), bound-column lookup (Python truthiness: a column index of 0 would be
falsy, hence the explicit `≠ 0` tests), classification, and rendering. -/
def resultValue (room minS maxS : Sheet) (mm xm : List (String × ℕ))
    (dsr dsc r c : ℕ) : Value :=
  if r < dsr ∨ c < dsc then room.cell r c
  else
    match headerToken room 2 c with
    | none => room.cell r c
    | some sid =>
      match lookupSensor mm sid, lookupSensor xm sid with
      | some mc, some xc =>
        if mc ≠ 0 ∧ xc ≠ 0 then
          renderVerdict (classify (room.cell r c) (minS.cell r mc) (maxS.cell r xc))
        else room.cell r c
      | _, _ => room.cell r c

/-- The four logical roles of `auto_detect_sheets`. -/
inductive Role where
| maxRole : Role
| minRole : Role
| midband : Role
| roomData : Role
deriving DecidableEq

/-- The fixed keyword table of `auto_detect_sheets`. -/
def role_keywords : Role → List String
| Role.maxRole => ["max", "maximum"]
| Role.minRole => ["min", "minimum"]
| Role.midband => ["midband"]
| Role.roomData => ["sensed value", "room"]

/-- Title pass test: some keyword of the role occurs in the lower-cased title. -/
def titleMatches (role : Role) (s : Sheet) : Bool :=
  (role_keywords role).any (fun k => strContains (lowerStr s.title) k)

/-- Content pass test: some truthy string cell in the top-left 10×10 block
contains a keyword of the role. -/
def cellMatches (role : Role) (s : Sheet) : Bool :=
  (rangeFromLen 1 10).any (fun r =>
    (rangeFromLen 1 10).any (fun c =>
      match s.cell r c with
      | Value.text t =>
        (t != "") && (role_keywords role).any (fun k => strContains (lowerStr t) k)
      | _ => false))

/-- First pass of `auto_detect_sheets`: walk the sheets in workbook order; a
sheet whose title matches a still-unresolved role claims it. -/
def auto_detect_pass1 (wb : List Sheet) : Role → Option String :=
  wb.foldl
    (fun d s role =>
      match d role with
      | some t => some t
      | none => if titleMatches role s then some s.title else none)
    (fun _ => none)

/-- Second pass of `auto_detect_sheets`: for each still-unresolved role, the
first sheet (workbook order) whose 10×10 block contains a keyword claims it. -/
def auto_detect_pass2 (wb : List Sheet) (d : Role → Option String) :
    Role → Option String :=
  fun role =>
    match d role with
    | some t => some t
    | none => (wb.find? (cellMatches role)).map Sheet.title

/-- `auto_detect_sheets(wb)`: the two passes in sequence. -/
def auto_detect_sheets (wb : List Sheet) : Role → Option String :=
  auto_detect_pass2 wb (auto_detect_pass1 wb)

/-- The `missing_sheets` list of `process_excel` lines 100-103, in the
iteration order of the source. -/
def missing_sheets (wb : List Sheet) : List String :=
  [("Room Data", auto_detect_sheets wb Role.roomData),
   ("Min", auto_detect_sheets wb Role.minRole),
   ("Max", auto_detect_sheets wb Role.maxRole)].filterMap
    (fun p => if p.2.isNone then some p.1 else none)

/-- The `st.error` message of line 105, produced exactly when a required role
is unresolved (in which case `process_excel` returns before touching the
workbook). -/
def errorMessage (wb : List Sheet) : Option String :=
  if missing_sheets wb = [] then none
  else some ("The following required sheets are missing: "
    ++ String.intercalate ", " (missing_sheets wb))

/-- Python `wb[name]`: lookup of a sheet by title (detection only ever returns
titles of present sheets, so the default is never reached on the used paths). -/
def getSheet (wb : List Sheet) (t : String) : Sheet :=
  (wb.find? (fun s => s.title == t)).getD (Sheet.mk "" 1 1 1 1 (fun _ _ => Value.empty))

/-- The Result sheet: the Sensed sheet's occupied rectangle with the written
value and the applied fill at every coordinate. -/
structure ResultGrid where
  minRow : ℕ
  maxRow : ℕ
  minCol : ℕ
  maxCol : ℕ
  value : ℕ → ℕ → Value
  tag : ℕ → ℕ → Tag

/-- `process_excel`: role detection, the fatal missing-role check (which
returns `none` before any Result sheet exists), sensor mappings at header
row 2, the offset of the Room sheet with the 3/2 defaults, and the per-cell
loop over the Room sheet's rectangle. -/
def process_excel (wb : List Sheet) : Option ResultGrid :=
  if missing_sheets wb = [] then
    let room := getSheet wb ((auto_detect_sheets wb Role.roomData).getD "")
    let minS := getSheet wb ((auto_detect_sheets wb Role.minRole).getD "")
    let maxS := getSheet wb ((auto_detect_sheets wb Role.maxRole).getD "")
    let mm := build_sensor_mapping minS 2
    let xm := build_sensor_mapping maxS 2
    let off := detect_data_offset room 3 2
    some (ResultGrid.mk room.minRow room.maxRow room.minCol room.maxCol
      (fun r c => resultValue room minS maxS mm xm off.dataStartRow off.dataStartCol r c)
      (fun r c => resultTag off.dataStartRow off.dataStartCol r c
        (resultValue room minS maxS mm xm off.dataStartRow off.dataStartCol r c)))
  else none

/-- The Result cell at `(r, c)`: written value and fill, or `none` when the
run failed on missing roles. -/
def process_cell (wb : List Sheet) (r c : ℕ) : Option (Value × Tag) :=
  (process_excel wb).map (fun g => (g.value r c, g.tag r c))

/-! Specification-side predicates, used to state the claims. -/

/-- `(r, c)` is the first numeric cell of the sheet in row-major scan order
over the occupied rectangle. -/
def firstNumericAt (s : Sheet) (r c : ℕ) : Prop :=
  r ∈ rowRange s ∧ c ∈ colRange s ∧ (s.cell r c).isNum = true ∧
  (∀ r2 ∈ rowRange s, r2 < r → ∀ c2 ∈ colRange s, (s.cell r2 c2).isNum = false) ∧
  (∀ c2 ∈ colRange s, c2 < c → (s.cell r c2).isNum = false)

/-- No cell of the occupied rectangle is numeric. -/
def noNumeric (s : Sheet) : Prop :=
  ∀ r ∈ rowRange s, ∀ c ∈ colRange s, (s.cell r c).isNum = false

/-- The data cell `(r, c)` of the Room sheet falls through to the
raw-propagation branch: no sensor identifier in its header-row cell, a failed
(or falsy) column lookup in either bound mapping, or a non-numeric
sensed/lower/upper triple. -/
def unclassifiedAt (room minS maxS : Sheet) (mm xm : List (String × ℕ))
    (r c : ℕ) : Bool :=
  match headerToken room 2 c with
  | none => true
  | some sid =>
    match lookupSensor mm sid, lookupSensor xm sid with
    | some mc, some xc =>
      if mc ≠ 0 ∧ xc ≠ 0 then
        !((room.cell r c).isNum && (minS.cell r mc).isNum && (maxS.cell r xc).isNum)
      else true
    | _, _ => true

/-- The identifier pattern stated by the spec's words: the text contains a
token of two letters followed by one or more digits (i.e. at some position,
two alphabetic characters followed by a digit).  Stated only to compare the
spec's pattern with the source's `OC`-specific pattern. -/
def specPatternTwoLettersDigits : List Char → Bool
| [] => false
| a :: rest =>
  (match rest with
   | b :: d :: _ => a.isAlpha && b.isAlpha && d.isDigit
   | _ => false) || specPatternTwoLettersDigits rest

/-! Concrete workbooks and sheets used as test inputs. -/

/-- A sheet with the given title and no content. -/
def sheetNamed (t : String) : Sheet := Sheet.mk t 1 1 1 1 (fun _ _ => Value.empty)

/-- The workbook of the role-detection scenario in the spec's §8. -/
def wbC3 : List Sheet :=
  [sheetNamed "Data", sheetNamed "Min Temp", sheetNamed "Max Temp",
   sheetNamed "Room Sensed Value"]

/-- A workbook whose only sheet matches no role keyword. -/
def wbData : List Sheet := [sheetNamed "Data"]

/-- A workbook whose only sheet's title contains both a Min and a Max keyword. -/
def wbMinMax : List Sheet := [sheetNamed "Min Max Temp"]

/-- A Room sheet whose data region contains the literal text `"ok"`. -/
def roomC2 : Sheet := Sheet.mk "Room Data" 2 4 1 1 (fun r c =>
  match r, c with
  | 2, 1 => Value.text "OC1"
  | 3, 1 => Value.num 5
  | 4, 1 => Value.text "ok"
  | _, _ => Value.empty)

/-- A Min sheet aligned with `roomC2` by sensor identifier. -/
def minC2 : Sheet := Sheet.mk "Min" 2 4 1 1 (fun r c =>
  match r, c with
  | 2, 1 => Value.text "OC1"
  | 3, 1 => Value.num 0
  | 4, 1 => Value.num 0
  | _, _ => Value.empty)

/-- A Max sheet aligned with `roomC2` by sensor identifier. -/
def maxC2 : Sheet := Sheet.mk "Max" 2 4 1 1 (fun r c =>
  match r, c with
  | 2, 1 => Value.text "OC1"
  | 3, 1 => Value.num 100
  | 4, 1 => Value.num 100
  | _, _ => Value.empty)

/-- A complete workbook on which every role resolves. -/
def wbC2 : List Sheet := [roomC2, minC2, maxC2]

/-- A sheet whose header row holds `"AB123"`: two letters followed by digits,
but not the literal `OC` prefix. -/
def shAB : Sheet := Sheet.mk "sheet" 2 2 1 1 (fun r c =>
  match r, c with
  | 2, 1 => Value.text "AB123"
  | _, _ => Value.empty)

/-- A sheet whose header row holds the sensor identifier `"OC7"`. -/
def shOC : Sheet := Sheet.mk "sheet" 2 2 1 1 (fun r c =>
  match r, c with
  | 2, 1 => Value.text "OC7"
  | _, _ => Value.empty)

/-- A sheet whose header row holds the same sensor identifier `"OC5"` in two
columns. -/
def shDup : Sheet := Sheet.mk "sheet" 2 2 1 2 (fun r c =>
  match r, c with
  | 2, 1 => Value.text "OC5"
  | 2, 2 => Value.text "OC5"
  | _, _ => Value.empty)

/-- A workbook whose single sheet's title matches the Min keywords. -/
def wbMinA : List Sheet := [sheetNamed "Min Temp"]

/-- A second workbook segment whose single sheet also matches the Min
keywords. -/
def wbMinB : List Sheet := [sheetNamed "Minimum 2"]

/-- A sheet whose first row is text then a number. -/
def shW : Sheet := Sheet.mk "w" 1 2 1 2 (fun r c =>
  match r, c with
  | 1, 1 => Value.text "a"
  | 1, 2 => Value.num 7
  | _, _ => Value.empty)

/-- A sheet containing only text. -/
def shT : Sheet := Sheet.mk "t" 1 2 1 2 (fun r c =>
  match r, c with
  | 1, 1 => Value.text "a"
  | _, _ => Value.empty)

/-- A sheet whose only cell is the boolean `True`. -/
def shBool : Sheet := Sheet.mk "b" 1 1 1 1 (fun r c =>
  match r, c with
  | 1, 1 => Value.boolean true
  | _, _ => Value.empty)

/-! Helper lemmas. -/

lemma mem_rangeFromLen : ∀ (n a x : ℕ), x ∈ rangeFromLen a n ↔ a ≤ x ∧ x < a + n := by
  intro n
  induction n with
  | zero =>
    intro a x
    simp [rangeFromLen]
  | succ n ih =>
    intro a x
    simp [rangeFromLen, ih]
    all_goals omega

lemma find?_rangeFromLen_eq_some (p : ℕ → Bool) :
    ∀ (n a x : ℕ), x ∈ rangeFromLen a n → p x = true →
      (∀ y ∈ rangeFromLen a n, y < x → p y = false) →
      (rangeFromLen a n).find? p = some x := by
  intro n
  induction n with
  | zero =>
    intro a x hx
    simp [rangeFromLen] at hx
  | succ n ih =>
    intro a x hx hp hmin
    show (a :: rangeFromLen (a+1) n).find? p = some x
    by_cases hax : a = x
    · subst hax
      exact List.find?_cons_of_pos _ hp
    · have hx2 : x ∈ rangeFromLen (a+1) n := by
        rcases (List.mem_cons).mp hx with h | h
        · exact absurd h.symm hax
        · exact h
      have haltx : a < x := by
        have h1 := (mem_rangeFromLen _ _ _).mp hx
        omega
      have hpa : p a = false := hmin a (List.mem_cons_self _ _) haltx
      rw [List.find?_cons_of_neg _ (by simp [hpa])]
      exact ih (a+1) x hx2 hp (fun y hy hylt => hmin y (List.mem_cons_of_mem _ hy) hylt)

lemma find?_rangeFromLen_eq_none (p : ℕ → Bool) :
    ∀ (n a : ℕ), (∀ y ∈ rangeFromLen a n, p y = false) →
      (rangeFromLen a n).find? p = none := by
  intro n
  induction n with
  | zero => intro a _; rfl
  | succ n ih =>
    intro a hall
    show (a :: rangeFromLen (a+1) n).find? p = none
    rw [List.find?_cons_of_neg _ (by simp [hall a (List.mem_cons_self _ _)])]
    exact ih (a+1) (fun y hy => hall y (List.mem_cons_of_mem _ hy))

lemma findNumInRow_eq_some (s : Sheet) (r c : ℕ)
    (hc : c ∈ colRange s) (hnum : (s.cell r c).isNum = true)
    (hfirst : ∀ c2 ∈ colRange s, c2 < c → (s.cell r c2).isNum = false) :
    findNumInRow s r = some c :=
  find?_rangeFromLen_eq_some _ _ _ _ hc hnum hfirst

lemma findNumInRow_eq_none (s : Sheet) (r : ℕ)
    (h : ∀ c2 ∈ colRange s, (s.cell r c2).isNum = false) :
    findNumInRow s r = none :=
  find?_rangeFromLen_eq_none _ _ _ h

lemma classify_num (a b c : ℚ) :
    classify (Value.num a) (Value.num b) (Value.num c) =
      if a ≤ b then Verdict.low (round2 (a - b))
      else if c ≤ a then Verdict.high (round2 (a - c))
      else Verdict.ok := rfl

lemma round2_zero : round2 0 = 0 := by norm_num [round2, roundHalfEven]

lemma mem_foldl_mapStep (s : Sheet) (headerRow : ℕ) :
    ∀ (L : List ℕ) (m : List (String × ℕ)) (p : String × ℕ),
      p ∈ L.foldl (mapStep s headerRow) m ↔
        p ∈ m ∨ (p.2 ∈ L ∧ headerToken s headerRow p.2 = some p.1) := by
  intro L
  induction L with
  | nil => intro m p; simp
  | cons c L ih =>
    intro m p
    show p ∈ L.foldl (mapStep s headerRow) (mapStep s headerRow m c) ↔ _
    rw [ih]
    unfold mapStep
    cases hh : headerToken s headerRow c with
    | none =>
      simp only [List.mem_cons]
      constructor
      · rintro (h | ⟨h1, h2⟩)
        · exact Or.inl h
        · exact Or.inr ⟨Or.inr h1, h2⟩
      · rintro (h | ⟨h1 | h1, h2⟩)
        · exact Or.inl h
        · rw [h1, hh] at h2; exact Option.noConfusion h2
        · exact Or.inr ⟨h1, h2⟩
    | some sid =>
      simp only [List.mem_cons]
      constructor
      · rintro ((h | h) | ⟨h1, h2⟩)
        · subst h; exact Or.inr ⟨Or.inl rfl, hh⟩
        · exact Or.inl h
        · exact Or.inr ⟨Or.inr h1, h2⟩
      · rintro (h | ⟨h1 | h1, h2⟩)
        · exact Or.inl (Or.inr h)
        · left; left
          rw [h1, hh] at h2
          obtain ⟨p1, p2⟩ := p
          simp only at h1 h2
          injection h2 with h2
          rw [h1, ← h2]
        · exact Or.inr ⟨h1, h2⟩

lemma lookupSensor_foldl_of_no_match (s : Sheet) (headerRow : ℕ) (sid : String) :
    ∀ (L : List ℕ) (m : List (String × ℕ)),
      (∀ c2 ∈ L, headerToken s headerRow c2 ≠ some sid) →
      lookupSensor (L.foldl (mapStep s headerRow) m) sid = lookupSensor m sid := by
  intro L
  induction L with
  | nil => intro m _; rfl
  | cons c L ih =>
    intro m hno
    show lookupSensor (L.foldl (mapStep s headerRow) (mapStep s headerRow m c)) sid
      = lookupSensor m sid
    rw [ih (mapStep s headerRow m c) (fun c2 hc2 => hno c2 (List.mem_cons_of_mem _ hc2))]
    unfold mapStep
    cases hh : headerToken s headerRow c with
    | none => rfl
    | some sid2 =>
      have hne : sid2 ≠ sid := by
        intro he
        exact hno c (List.mem_cons_self _ _) (by rw [hh, he])
      unfold lookupSensor
      rw [List.find?_cons_of_neg _ (by simp [hne])]

lemma lookupSensor_rangeFromLen_last (s : Sheet) (headerRow : ℕ) (sid : String) :
    ∀ (n a : ℕ) (m : List (String × ℕ)) (c : ℕ),
      c ∈ rangeFromLen a n → headerToken s headerRow c = some sid →
      (∀ c2 ∈ rangeFromLen a n, c < c2 → headerToken s headerRow c2 ≠ some sid) →
      lookupSensor ((rangeFromLen a n).foldl (mapStep s headerRow) m) sid = some c := by
  intro n
  induction n with
  | zero =>
    intro a m c hc
    simp [rangeFromLen] at hc
  | succ n ih =>
    intro a m c hc ht hlast
    show lookupSensor
      ((rangeFromLen (a+1) n).foldl (mapStep s headerRow) (mapStep s headerRow m a)) sid
      = some c
    rcases List.mem_cons.mp hc with hca | hctail
    · have hno : ∀ c2 ∈ rangeFromLen (a+1) n, headerToken s headerRow c2 ≠ some sid := by
        intro c2 hc2
        have hb := (mem_rangeFromLen _ _ _).mp hc2
        exact hlast c2 (List.mem_cons_of_mem _ hc2) (by omega)
      rw [lookupSensor_foldl_of_no_match s headerRow sid _ _ hno]
      unfold mapStep
      rw [hca] at ht
      simp only [ht]
      unfold lookupSensor
      rw [List.find?_cons_of_pos _ (by simp)]
      rw [hca]
      rfl
    · apply ih (a+1) (mapStep s headerRow m a) c hctail ht
      intro c2 hc2 hlt
      exact hlast c2 (List.mem_cons_of_mem _ hc2) hlt

lemma pass1_keeps (wb : List Sheet) (d : Role → Option String) (role : Role)
    (t : String) (h : d role = some t) :
    (wb.foldl
      (fun d2 s role2 =>
        match d2 role2 with
        | some t2 => some t2
        | none => if titleMatches role2 s then some s.title else none)
      d) role = some t := by
  induction wb generalizing d with
  | nil => exact h
  | cons s wb ih =>
    apply ih
    show (match d role with
      | some t2 => some t2
      | none => if titleMatches role s then some s.title else none) = some t
    rw [h]

/-! The claims. -/

/-- Claim C1: for every numeric triple `(s, lo, hi)` with `lo < hi`, the
classifier yields Low exactly when `s ≤ lo`, High exactly when `s ≥ hi`, and
Ok exactly when `lo < s < hi`; at the boundaries,
`classify lo lo hi = Low 0` and `classify hi lo hi = High 0`. -/
theorem claim_c1 (s lo hi : ℚ) (h : lo < hi) :
    ((∃ d, classify (Value.num s) (Value.num lo) (Value.num hi) = Verdict.low d) ↔ s ≤ lo) ∧
    ((∃ d, classify (Value.num s) (Value.num lo) (Value.num hi) = Verdict.high d) ↔ hi ≤ s) ∧
    (classify (Value.num s) (Value.num lo) (Value.num hi) = Verdict.ok ↔ lo < s ∧ s < hi) ∧
    classify (Value.num lo) (Value.num lo) (Value.num hi) = Verdict.low 0 ∧
    classify (Value.num hi) (Value.num lo) (Value.num hi) = Verdict.high 0 := by
  refine ⟨?_, ?_, ?_, ?_, ?_⟩
  · rw [classify_num]
    split_ifs with h1 h2
    · simp [h1]
    · simp [h1]
    · simp [h1]
  · rw [classify_num]
    split_ifs with h1 h2
    · constructor
      · rintro ⟨d, hd⟩; exact absurd hd (by simp)
      · intro h2; exact absurd (le_trans h2 h1) (not_le.mpr h)
    · simp [h2]
    · simp [h2]
  · rw [classify_num]
    split_ifs with h1 h2
    · constructor
      · intro hd; exact absurd hd (by simp)
      · rintro ⟨ha, _⟩; exact absurd h1 (not_le.mpr ha)
    · constructor
      · intro hd; exact absurd hd (by simp)
      · rintro ⟨_, hb⟩; exact absurd h2 (not_le.mpr hb)
    · simp [not_le.mp h1, not_le.mp h2]
  · rw [classify_num, if_pos (le_refl lo), sub_self, round2_zero]
  · rw [classify_num, if_neg (not_le.mpr h), if_pos (le_refl hi), sub_self, round2_zero]

/-- Witness for C1 at the concrete triple `(5, 0, 10)`. -/
theorem claim_c1_w :
    (0:ℚ) < 10 ∧
      (classify (Value.num 5) (Value.num 0) (Value.num 10) = Verdict.ok ↔
        (0:ℚ) < 5 ∧ (5:ℚ) < 10) :=
  ⟨by decide, (claim_c1 5 0 10 (by decide)).2.2.1⟩

/-- Claim C9: a classified cell's delta is the difference between the sensed
value and the violated bound, rounded half-to-even to two decimal places; in
particular `classify 9.996 10 20` is Low with delta `round(-0.004, 2) = 0`. -/
theorem claim_c9 (s lo hi : ℚ) :
    (s ≤ lo → classify (Value.num s) (Value.num lo) (Value.num hi)
      = Verdict.low (round2 (s - lo))) ∧
    (¬ s ≤ lo → hi ≤ s → classify (Value.num s) (Value.num lo) (Value.num hi)
      = Verdict.high (round2 (s - hi))) ∧
    classify (Value.num (2499/250)) (Value.num 10) (Value.num 20)
      = Verdict.low (round2 (2499/250 - 10)) ∧
    round2 ((2499:ℚ)/250 - 10) = 0 := by
  refine ⟨?_, ?_, ?_, ?_⟩
  · intro h1
    rw [classify_num, if_pos h1]
  · intro h1 h2
    rw [classify_num, if_neg h1, if_pos h2]
  · rw [classify_num, if_pos (by norm_num)]
  · norm_num [round2, roundHalfEven]

/-- Witness for C9 at the concrete triple `(5, 10, 20)`. -/
theorem claim_c9_w :
    (5:ℚ) ≤ 10 ∧
      classify (Value.num 5) (Value.num 10) (Value.num 20)
        = Verdict.low (round2 (5 - 10)) :=
  ⟨by decide, (claim_c9 5 10 20).1 (by decide)⟩

/-- Claim C10: a boolean cell value passes the numeric test (Python `bool` is
a subclass of `int`), so it can mark the data start in `detect_data_offset`
and participates in classification instead of falling back. -/
theorem claim_c10 :
    (Value.boolean true).isNum = true ∧
    (Value.boolean false).isNum = true ∧
    detect_data_offset shBool 3 2 = OffsetTuple.mk 1 1 1 1 ∧
    classify (Value.boolean true) (Value.num 0) (Value.num 2) = Verdict.ok ∧
    classify (Value.boolean true) (Value.num 1) (Value.num 2)
      = Verdict.low (round2 (1 - 1)) :=
  ⟨rfl, rfl, by decide, by decide, rfl⟩

/-- Claim C3: on the workbook `["Data", "Min Temp", "Max Temp",
"Room Sensed Value"]` detection resolves LowerBound to "Min Temp", UpperBound
to "Max Temp", Sensed to "Room Sensed Value", and leaves Midband unresolved. -/
theorem claim_c3 :
    auto_detect_sheets wbC3 Role.minRole = some "Min Temp" ∧
    auto_detect_sheets wbC3 Role.maxRole = some "Max Temp" ∧
    auto_detect_sheets wbC3 Role.roomData = some "Room Sensed Value" ∧
    auto_detect_sheets wbC3 Role.midband = none := by
  refine ⟨by decide, by decide, by decide, by decide⟩

/-- Claim C4: when any required role is unresolved, the run fails (no Result
grid is produced, leaving the workbook untouched) with the fatal message
naming each missing role. -/
theorem claim_c4 (wb : List Sheet)
    (h : auto_detect_sheets wb Role.roomData = none ∨
      auto_detect_sheets wb Role.minRole = none ∨
      auto_detect_sheets wb Role.maxRole = none) :
    missing_sheets wb ≠ [] ∧ process_excel wb = none ∧
    errorMessage wb = some ("The following required sheets are missing: "
      ++ String.intercalate ", " (missing_sheets wb)) ∧
    (auto_detect_sheets wb Role.roomData = none → "Room Data" ∈ missing_sheets wb) ∧
    (auto_detect_sheets wb Role.minRole = none → "Min" ∈ missing_sheets wb) ∧
    (auto_detect_sheets wb Role.maxRole = none → "Max" ∈ missing_sheets wb) := by
  have h1 : auto_detect_sheets wb Role.roomData = none → "Room Data" ∈ missing_sheets wb := by
    intro hn
    unfold missing_sheets
    simp [hn]
  have h2 : auto_detect_sheets wb Role.minRole = none → "Min" ∈ missing_sheets wb := by
    intro hn
    unfold missing_sheets
    cases ho1 : auto_detect_sheets wb Role.roomData <;> simp [hn, ho1]
  have h3 : auto_detect_sheets wb Role.maxRole = none → "Max" ∈ missing_sheets wb := by
    intro hn
    unfold missing_sheets
    cases ho1 : auto_detect_sheets wb Role.roomData <;>
      cases ho2 : auto_detect_sheets wb Role.minRole <;> simp [hn, ho1, ho2]
  have hne : missing_sheets wb ≠ [] := by
    rcases h with hx | hx | hx
    · exact List.ne_nil_of_mem (h1 hx)
    · exact List.ne_nil_of_mem (h2 hx)
    · exact List.ne_nil_of_mem (h3 hx)
  refine ⟨hne, ?_, ?_, h1, h2, h3⟩
  · unfold process_excel
    rw [if_neg hne]
  · unfold errorMessage
    rw [if_neg hne]

/-- Witness for C4 on a workbook with a single sheet matching no role. -/
theorem claim_c4_w :
    auto_detect_sheets wbData Role.roomData = none ∧ process_excel wbData = none :=
  ⟨by decide, (claim_c4 wbData (Or.inl (by decide))).2.1⟩

/-- Claim C5: the offset aligner returns the row-major first numeric cell as
data start, header boundaries clipped to the occupied rectangle; a sheet with
no numeric cell degenerates to the sheet minimum in both coordinates. -/
theorem claim_c5 (s : Sheet) (headerRows headerCols r c : ℕ) :
    (firstNumericAt s r c →
      detect_data_offset s headerRows headerCols =
        OffsetTuple.mk (max s.minRow (r - headerRows))
          (max s.minCol (c - headerCols)) r c) ∧
    (noNumeric s →
      detect_data_offset s headerRows headerCols =
        OffsetTuple.mk s.minRow s.minCol s.minRow s.minCol) := by
  constructor
  · rintro ⟨hrm, hcm, hnum, hrows, hcols⟩
    have hrow : findNumInRow s r = some c := findNumInRow_eq_some s r c hcm hnum hcols
    have hrfind : (rowRange s).find? (fun r2 => (findNumInRow s r2).isSome) = some r := by
      apply find?_rangeFromLen_eq_some _ _ _ _ hrm
      · rw [hrow]; rfl
      · intro y hy hylt
        rw [findNumInRow_eq_none s y (fun c2 hc2 => hrows y hy hylt c2 hc2)]
        rfl
    have hfind : findFirstNum s = some (r, c) := by
      unfold findFirstNum
      rw [hrfind]
      simp [hrow]
    unfold detect_data_offset
    rw [hfind]
  · intro hno
    have hrfind : (rowRange s).find? (fun r2 => (findNumInRow s r2).isSome) = none := by
      apply find?_rangeFromLen_eq_none
      intro y hy
      rw [findNumInRow_eq_none s y (fun c2 hc2 => hno y hy c2 hc2)]
      rfl
    have hfind : findFirstNum s = none := by
      unfold findFirstNum
      rw [hrfind]
    unfold detect_data_offset
    rw [hfind]

/-- Witness for C5: a sheet whose first numeric cell is at `(1, 2)` and an
all-text sheet. -/
theorem claim_c5_w :
    firstNumericAt shW 1 2 ∧
    detect_data_offset shW 3 2 = OffsetTuple.mk 1 1 1 2 ∧
    noNumeric shT ∧
    detect_data_offset shT 3 2 = OffsetTuple.mk 1 1 1 1 :=
  ⟨by unfold firstNumericAt; decide,
   (claim_c5 shW 3 2 1 2).1 (by unfold firstNumericAt; decide),
   by unfold noNumeric; decide,
   (claim_c5 shT 3 2 1 1).2 (by unfold noNumeric; decide)⟩

/-- Claim C6: a cell of the Sensed sheet's header band (row or column before
the data start of the Sensed sheet's own offset tuple) is copied verbatim into
the Result grid and carries no fill. -/
theorem claim_c6 (room minS maxS : Sheet) (mm xm : List (String × ℕ)) (r c : ℕ)
    (h : r < (detect_data_offset room 3 2).dataStartRow ∨
      c < (detect_data_offset room 3 2).dataStartCol) :
    resultValue room minS maxS mm xm (detect_data_offset room 3 2).dataStartRow
        (detect_data_offset room 3 2).dataStartCol r c = room.cell r c ∧
    resultTag (detect_data_offset room 3 2).dataStartRow
        (detect_data_offset room 3 2).dataStartCol r c
        (resultValue room minS maxS mm xm (detect_data_offset room 3 2).dataStartRow
          (detect_data_offset room 3 2).dataStartCol r c) = Tag.noTag := by
  have h1 : resultValue room minS maxS mm xm (detect_data_offset room 3 2).dataStartRow
      (detect_data_offset room 3 2).dataStartCol r c = room.cell r c := by
    unfold resultValue
    rw [if_pos h]
  refine ⟨h1, ?_⟩
  rw [h1]
  unfold resultTag
  rw [if_neg (by rintro ⟨ha, hb⟩; rcases h with h | h <;> omega)]

/-- Witness for C6 at the header cell `(2, 1)` of a concrete Room sheet. -/
theorem claim_c6_w :
    2 < (detect_data_offset roomC2 3 2).dataStartRow ∧
    resultValue roomC2 minC2 maxC2 (build_sensor_mapping minC2 2)
        (build_sensor_mapping maxC2 2) (detect_data_offset roomC2 3 2).dataStartRow
        (detect_data_offset roomC2 3 2).dataStartCol 2 1 = roomC2.cell 2 1 :=
  ⟨by decide,
   (claim_c6 roomC2 minC2 maxC2 (build_sensor_mapping minC2 2)
      (build_sensor_mapping maxC2 2) 2 1 (Or.inl (by decide))).1⟩

/-- Claim C2 is refuted: the data cell `(4, 1)` of `wbC2` has a textual
sensed value `"ok"` (so the triple is non-numeric); the Result cell does hold
the original value unchanged, but — contrary to the claim — it receives the
Ok fill, because the fill logic inspects the written string rather than the
verdict. -/
theorem claim_c2_counterexample :
    process_cell wbC2 4 1 = some (Value.text "ok", Tag.okFill) := by decide

/-- Claim C2 as amended: on a non-numeric triple or a failed lookup the Result
cell holds the original sensed value unchanged (and the total model raises no
exception), and the cell carries no visual tag unless the original value is
itself a string that begins with "low:" or "high:" or equals "ok". -/
theorem claim_c2_amended (room minS maxS : Sheet) (mm xm : List (String × ℕ))
    (dsr dsc r c : ℕ)
    (h : unclassifiedAt room minS maxS mm xm r c = true) :
    resultValue room minS maxS mm xm dsr dsc r c = room.cell r c ∧
    (resultTag dsr dsc r c (resultValue room minS maxS mm xm dsr dsc r c) ≠ Tag.noTag →
      ∃ t, room.cell r c = Value.text t ∧
        (textStarts t "low:" = true ∨ textStarts t "high:" = true ∨ t = "ok")) := by
  have hv : resultValue room minS maxS mm xm dsr dsc r c = room.cell r c := by
    unfold resultValue
    by_cases hb : r < dsr ∨ c < dsc
    · rw [if_pos hb]
    · rw [if_neg hb]
      unfold unclassifiedAt at h
      cases hht : headerToken room 2 c with
      | none => simp [hht]
      | some sid =>
        simp only [hht] at h
        simp only [hht]
        cases hm : lookupSensor mm sid with
        | none => simp [hm]
        | some mc =>
          cases hx : lookupSensor xm sid with
          | none => simp [hm, hx]
          | some xc =>
            simp only [hm, hx] at h
            simp only [hm, hx]
            by_cases hz : mc ≠ 0 ∧ xc ≠ 0
            · rw [if_pos hz]
              rw [if_pos hz] at h
              have hcls : classify (room.cell r c) (minS.cell r mc) (maxS.cell r xc)
                  = Verdict.unclassified (room.cell r c) := by
                unfold classify
                rw [Bool.not_eq_true'] at h
                rw [if_neg (by simp [h])]
              rw [hcls]
              rfl
            · rw [if_neg hz]
  refine ⟨hv, ?_⟩
  intro hne
  rw [hv] at hne
  unfold resultTag at hne
  by_cases hreg : dsr ≤ r ∧ dsc ≤ c
  · rw [if_pos hreg] at hne
    cases hcell : room.cell r c with
    | text t =>
      rw [hcell] at hne
      by_cases g1 : textStarts t "low:" = true
      · exact ⟨t, rfl, Or.inl g1⟩
      · by_cases g2 : textStarts t "high:" = true
        · exact ⟨t, rfl, Or.inr (Or.inl g2)⟩
        · by_cases g3 : t = "ok"
          · exact ⟨t, rfl, Or.inr (Or.inr g3)⟩
          · exfalso
            apply hne
            simp [g1, g2, g3]
    | empty =>
      rw [hcell] at hne
      exact absurd rfl hne
    | num q =>
      rw [hcell] at hne
      exact absurd rfl hne
    | boolean b =>
      rw [hcell] at hne
      exact absurd rfl hne
  · rw [if_neg hreg] at hne
    exact absurd rfl hne

/-- Witness for the amended C2 at the data cell `(4, 1)` of `wbC2`. -/
theorem claim_c2_amended_w :
    unclassifiedAt roomC2 minC2 maxC2 (build_sensor_mapping minC2 2)
        (build_sensor_mapping maxC2 2) 4 1 = true ∧
    resultValue roomC2 minC2 maxC2 (build_sensor_mapping minC2 2)
        (build_sensor_mapping maxC2 2) 3 1 4 1 = roomC2.cell 4 1 :=
  ⟨by decide,
   (claim_c2_amended roomC2 minC2 maxC2 (build_sensor_mapping minC2 2)
      (build_sensor_mapping maxC2 2) 3 1 4 1 (by decide)).1⟩

/-- Claim C7 is refuted on two points.  First, the header cell `(2, 1)` of
`shAB` holds `"AB123"`, which contains a token of two letters followed by
digits, yet the mapper records nothing — the source pattern is the literal
`OC` followed by digits, not any two letters.  Second, in `shDup` the header
cell `(2, 1)` holds `"OC5"` (matching even the literal pattern), yet the
final Identifier Map binds `"OC5"` to column 2, not to that cell's column 1:
the dict assignment `mapping[sensor_id] = col` lets a later column overwrite
the earlier cell's binding. -/
theorem claim_c7_counterexample :
    specPatternTwoLettersDigits "AB123".toList = true ∧
    shAB.cell 2 1 = Value.text "AB123" ∧
    1 ∈ colRange shAB ∧
    build_sensor_mapping shAB 2 = [] ∧
    headerToken shDup 2 1 = some "OC5" ∧
    1 ∈ colRange shDup ∧
    lookupSensor (build_sensor_mapping shDup 2) "OC5" = some 2 := by
  refine ⟨by decide, by decide, by decide, by decide, by decide, by decide, by decide⟩

/-- Claim C7 as amended: for every sheet and header-row cell whose text
contains a token matching the fixed lexical pattern of the literal letters
`OC` followed by one or more digits, the identifier mapper records that
identifier with the cell's column index (first match per cell); when the same
identifier occurs in several columns, the binding retained in the Identifier
Map is the last such column's.  Formally: the pair `(sid, c)` is recorded in
the built mapping, and when no later column of the occupied range carries the
same identifier, the map lookup returns exactly this cell's column. -/
theorem claim_c7_amended (s : Sheet) (headerRow c : ℕ) (sid : String)
    (hc : c ∈ colRange s) (ht : headerToken s headerRow c = some sid) :
    (sid, c) ∈ build_sensor_mapping s headerRow ∧
    ((∀ c2 ∈ colRange s, c < c2 → headerToken s headerRow c2 ≠ some sid) →
      lookupSensor (build_sensor_mapping s headerRow) sid = some c) := by
  constructor
  · unfold build_sensor_mapping
    rw [mem_foldl_mapStep]
    exact Or.inr ⟨hc, ht⟩
  · intro hlast
    unfold build_sensor_mapping
    exact lookupSensor_rangeFromLen_last s headerRow sid _ _ _ _ hc ht hlast

/-- Witness for the amended C7 on a sheet whose header holds `"OC7"` in its
only column: the identifier is recorded with, and the map lookup returns,
that cell's column. -/
theorem claim_c7_amended_w :
    1 ∈ colRange shOC ∧ headerToken shOC 2 1 = some "OC7" ∧
    ("OC7", 1) ∈ build_sensor_mapping shOC 2 ∧
    lookupSensor (build_sensor_mapping shOC 2) "OC7" = some 1 :=
  ⟨by decide, by decide,
   (claim_c7_amended shOC 2 1 "OC7" (by decide) (by decide)).1,
   (claim_c7_amended shOC 2 1 "OC7" (by decide) (by decide)).2 (by decide)⟩

/-- Claim C8 is refuted: in `wbMinMax` the single sheet "Min Max Temp" claims
both the Min role and the Max role — a sheet is not limited to the role it
first claims. -/
theorem claim_c8_counterexample :
    auto_detect_sheets wbMinMax Role.minRole = some "Min Max Temp" ∧
    auto_detect_sheets wbMinMax Role.maxRole = some "Min Max Temp" ∧
    Role.minRole ≠ Role.maxRole := by
  refine ⟨by decide, by decide, by decide⟩

/-- Claim C8 as amended: role detection never overwrites an already-resolved
role — once the title pass has resolved a role from the sheets scanned so
far, neither the remaining sheets of the title pass nor the content pass
reassigns it; a single sheet may however be assigned to several roles. -/
theorem claim_c8_amended (wb1 wb2 : List Sheet) (role : Role) (t : String)
    (h : auto_detect_pass1 wb1 role = some t) :
    auto_detect_pass1 (wb1 ++ wb2) role = some t ∧
    auto_detect_sheets (wb1 ++ wb2) role = some t := by
  have h1 : auto_detect_pass1 (wb1 ++ wb2) role = some t := by
    unfold auto_detect_pass1 at h ⊢
    rw [List.foldl_append]
    exact pass1_keeps wb2 _ role t h
  refine ⟨h1, ?_⟩
  unfold auto_detect_sheets auto_detect_pass2
  rw [h1]

/-- Witness for the amended C8: "Min Temp" resolves the Min role, and the
later sheet "Minimum 2" — itself a matching candidate for that role — does
not overwrite it. -/
theorem claim_c8_amended_w :
    auto_detect_pass1 wbMinA Role.minRole = some "Min Temp" ∧
    titleMatches Role.minRole (sheetNamed "Minimum 2") = true ∧
    auto_detect_sheets (wbMinA ++ wbMinB) Role.minRole = some "Min Temp" :=
  ⟨by decide, by decide,
   (claim_c8_amended wbMinA wbMinB Role.minRole "Min Temp" (by decide)).2⟩

end RoomTemp
